import Mathlib

/-!
Verification of the SQL migration planning pipeline of graphcool/graphcool
(server/prisma-rs), a shallow embedding of:

* `migration-engine/connectors/sql-migration-connector/src/database_migration_steps_inferrer.rs`
  (`SqlDatabaseMigrationStepsInferrer`: `fix_stupid_sqlite`, `needs_fix`, `fix`),
* `migration-engine/connectors/sql-migration-connector/src/database_inspector/sqlite_inspector.rs`
  (`Sqlite::get_table_names`, `Sqlite::get_table`, `Sqlite::get_columns`,
  `Sqlite::get_foreign_constraints`, `column_type`).

Rust `panic!` / `Option::unwrap` aborts are modelled as `Except.error` carrying
the panic message, so that error-handling properties can be stated; all other
code is translated directly.  Components of the repository that the inferrer
calls but whose source is not part of this snapshot
(`DatabaseSchemaDiffer::diff`, `DatabaseSchemaDiffer::column_descriptions`,
`SchemaInfo::table`, `convert_introspected_columns`) are modelled from the
specification and carry a doc comment saying so.
-/

/-- Semantic column types: the closed set used by the migration engine
(`ColumnType` in the database inspector). -/
inductive ColumnType
  | Int
  | Float
  | Boolean
  | String
  | DateTime
deriving DecidableEq, Repr

/-- A foreign-key attachment of a column (referenced table and column), as in
the spec data model. -/
structure ForeignKeyRef where
  referenced_table : String
  referenced_column : String
deriving DecidableEq, Repr

/-- A column of a relational table in the normalized schema model
(`TableInfo`'s columns in the relational introspection model): name, semantic
type, nullability, optional default, optional foreign-key attachment. -/
structure TableColumn where
  name : String
  tpe : ColumnType
  is_required : Bool
  default : Option String
  foreign_key : Option ForeignKeyRef
deriving DecidableEq, Repr

/-- An index / primary-key descriptor carrying its ordered column-name list
(the `primary_key` of `TableInfo`, used as `idx.columns` in `fix`). -/
structure IndexInfo where
  columns : List String
deriving DecidableEq, Repr

/-- A table of the normalized schema model (`TableInfo` as used by the steps
inferrer): name, ordered columns, optional primary key. -/
structure Table where
  name : String
  columns : List TableColumn
  primary_key : Option IndexInfo
deriving DecidableEq, Repr

/-- A relation entry of the relational schema model; the steps inferrer only
passes `next_schema.relations` through to `column_descriptions`, so only the
table names that take part are modelled. -/
structure Relation where
  table_a : String
  table_b : String
deriving DecidableEq, Repr

/-- A full schema snapshot (`SchemaInfo` a.k.a. `DatabaseSchema` in the steps
inferrer): tables plus relations. -/
structure DatabaseSchema where
  tables : List Table
  relations : List Relation
deriving DecidableEq, Repr

/-- Modelled from the spec: `SchemaInfo::table` is not part of this source
snapshot; per the spec, a SchemaModel is a set of tables unique by name with
lookup helpers, so `table` returns the table with the given name, if any. -/
def DatabaseSchema.table (schema : DatabaseSchema) (name : String) : Option Table :=
  schema.tables.find? (fun t => t.name = name)

/-- A rendered column description inside a `CreateTable` step (the output type
of `DatabaseSchemaDiffer::column_descriptions`): name, semantic type,
nullability, default, and resolved foreign-key attachment. -/
structure ColumnDescription where
  name : String
  tpe : ColumnType
  is_required : Bool
  default : Option String
  foreign_key : Option ForeignKeyRef
deriving DecidableEq, Repr

/-- Modelled from the spec: `DatabaseSchemaDiffer::column_descriptions` is not
part of this source snapshot; per the spec, a CreateTable step carries the full
column list, each column rendered with its semantic type, nullability, default,
and foreign-key attachment resolved from the schema for that table. -/
def column_descriptions (columns : List TableColumn) (_table : Table)
    (_relations : List Relation) : List ColumnDescription :=
  columns.map (fun c =>
    { name := c.name
      tpe := c.tpe
      is_required := c.is_required
      default := c.default
      foreign_key := c.foreign_key })

/-- Payload of a `CreateTable` migration step: table name, rendered column
list, primary-key column list. -/
structure CreateTable where
  name : String
  columns : List ColumnDescription
  primary_columns : List String
deriving DecidableEq, Repr

/-- Payload of a `DropTable` migration step. -/
structure DropTable where
  name : String
deriving DecidableEq, Repr

/-- One column-level change inside an `AlterTable` step (`TableChange` in the
migration connector): add, drop, or alter a column. -/
inductive TableChange
  | AddColumn (column : TableColumn)
  | DropColumn (name : String)
  | AlterColumn (name : String) (column : TableColumn)
deriving DecidableEq, Repr

/-- Payload of an `AlterTable` migration step: the table name and its ordered
list of column changes. -/
structure AlterTable where
  table : String
  changes : List TableChange
deriving DecidableEq, Repr

/-- The closed variant set of SQL migration steps (`SqlMigrationStep`). -/
inductive SqlMigrationStep
  | CreateTable (create_table : CreateTable)
  | AlterTable (alter_table : AlterTable)
  | DropTable (drop_table : DropTable)
  | RenameTable (name : String) (new_name : String)
  | RawSql (raw : String)
deriving DecidableEq, Repr

/-- `SqlDatabaseMigrationStepsInferrer::needs_fix`: an `AlterTable` needs the
SQLite rebuild fix iff its change list has a change that does not work on
SQLite, i.e. a `DropColumn` or an `AlterColumn` (`AddColumn` works). -/
def needs_fix (alter_table : AlterTable) : Bool :=
  let change_that_does_not_work_on_sqlite := alter_table.changes.find? (fun change =>
    match change with
    | TableChange.AddColumn _ => false
    | TableChange.DropColumn _ => true
    | TableChange.AlterColumn _ _ => true)
  change_that_does_not_work_on_sqlite.isSome

/-- The intersection-column computation inside `SqlDatabaseMigrationStepsInferrer::fix`
(lines 97-102): current-table column names filtered to those that also occur in
the expected table, in current-table order. -/
def intersection_columns (current next : Table) : List String :=
  let current_columns : List String := current.columns.map (fun c => c.name)
  let next_columns : List String := next.columns.map (fun c => c.name)
  current_columns.filter (fun c => next_columns.contains c)

/-- `SqlDatabaseMigrationStepsInferrer::fix`: the seven-step SQLite table
rebuild replacing one `AlterTable` that SQLite cannot execute. -/
def fix (schema_name : String) (_alter_table : AlterTable) (current next : Table)
    (next_schema : DatabaseSchema) : List SqlMigrationStep :=
  let name_of_temporary_table := "new_" ++ next.name
  [ SqlMigrationStep.RawSql "PRAGMA foreign_keys=OFF;",
    SqlMigrationStep.CreateTable
      { name := "new_" ++ next.name
        columns := column_descriptions next.columns next next_schema.relations
        primary_columns :=
          match next.primary_key with
          | none => []
          | some idx => idx.columns },
    (let columns_string := String.intercalate "," (intersection_columns current next)
     let sql := "INSERT INTO " ++ name_of_temporary_table ++ " (" ++ columns_string ++
       ") SELECT " ++ columns_string ++ " from " ++ next.name
     SqlMigrationStep.RawSql sql),
    SqlMigrationStep.DropTable { name := current.name },
    SqlMigrationStep.RenameTable name_of_temporary_table next.name,
    SqlMigrationStep.RawSql ("PRAGMA \"" ++ schema_name ++ "\".foreign_key_check;"),
    SqlMigrationStep.RawSql "PRAGMA foreign_keys=ON;" ]

/-- The message `Option::unwrap` panics with in Rust; `fix_stupid_sqlite`
unwraps the schema lookups for the altered table, so a missing table aborts
with exactly this message (no table name in it). -/
def unwrap_panic_message : String := "called `Option::unwrap()` on a `None` value"

/-- `SqlDatabaseMigrationStepsInferrer::fix_stupid_sqlite`: walk the step list;
an `AlterTable` that `needs_fix` is replaced by the seven rebuild steps from
`fix` (after unwrapping the current and expected tables of that name), every
other step is pushed through unchanged.  The Rust `unwrap` panic on a missing
table is modelled as `Except.error` with the panic message. -/
def fix_stupid_sqlite (schema_name : String) (current_database_schema : DatabaseSchema)
    (next_database_schema : DatabaseSchema) :
    List SqlMigrationStep → Except String (List SqlMigrationStep)
  | [] => Except.ok []
  | step :: rest =>
    match step with
    | SqlMigrationStep.AlterTable alter_table =>
      if needs_fix alter_table then
        match current_database_schema.table alter_table.table,
              next_database_schema.table alter_table.table with
        | some current_table, some next_table => do
          let tail ← fix_stupid_sqlite schema_name current_database_schema
            next_database_schema rest
          Except.ok (fix schema_name alter_table current_table next_table
            next_database_schema ++ tail)
        | _, _ => Except.error unwrap_panic_message
      else do
        let tail ← fix_stupid_sqlite schema_name current_database_schema
          next_database_schema rest
        Except.ok (step :: tail)
    | x => do
      let tail ← fix_stupid_sqlite schema_name current_database_schema
        next_database_schema rest
      Except.ok (x :: tail)

/-- The `email TEXT not null` column of the spec's end-to-end example. -/
def email_column : TableColumn :=
  { name := "email", tpe := ColumnType.String, is_required := true,
    default := none, foreign_key := none }

example : needs_fix ⟨"users", [TableChange.DropColumn "name"]⟩ = true := by decide

example : needs_fix ⟨"users", [TableChange.AddColumn email_column]⟩ = false := by decide


/-- The spec's `needs_correction` on whole steps: only an `AlterTable` step can
need correction, and it does iff `needs_fix` says so (the guard on line 60 of
the inferrer). -/
def needs_correction (step : SqlMigrationStep) : Bool :=
  match step with
  | SqlMigrationStep.AlterTable alter_table => needs_fix alter_table
  | _ => false

/-- The per-step output group of a successful `fix_stupid_sqlite` run: a
needing-fix `AlterTable` becomes its seven rebuild steps, every other step
becomes itself.  The `[]` branch is unreachable on runs that do not panic. -/
def step_group (schema_name : String) (current_database_schema : DatabaseSchema)
    (next_database_schema : DatabaseSchema) (step : SqlMigrationStep) :
    List SqlMigrationStep :=
  match step with
  | SqlMigrationStep.AlterTable alter_table =>
    if needs_fix alter_table then
      match current_database_schema.table alter_table.table,
            next_database_schema.table alter_table.table with
      | some current_table, some next_table =>
        fix schema_name alter_table current_table next_table next_database_schema
      | _, _ => []
    else [step]
  | x => [x]

/-- A successful run of the loop of `fix_stupid_sqlite` returns the
concatenation of the per-step groups, in input order. -/
theorem fix_stupid_sqlite_ok_eq_flatten (schema_name : String)
    (cur nxt : DatabaseSchema) :
    ∀ (steps out : List SqlMigrationStep),
      fix_stupid_sqlite schema_name cur nxt steps = Except.ok out →
      out = (steps.map (step_group schema_name cur nxt)).flatten := by
  intro steps
  induction steps with
  | nil =>
    intro out h
    simp [fix_stupid_sqlite] at h
    subst h
    rfl
  | cons step rest ih =>
    intro out h
    cases hrest : fix_stupid_sqlite schema_name cur nxt rest with
    | error e =>
      exfalso
      cases step with
      | AlterTable alter_table =>
        by_cases hfx : needs_fix alter_table
        · cases hc : cur.table alter_table.table with
          | none => simp [fix_stupid_sqlite, hfx, hc] at h
          | some current_table =>
            cases hn : nxt.table alter_table.table with
            | none => simp [fix_stupid_sqlite, hfx, hc, hn] at h
            | some next_table =>
              simp [fix_stupid_sqlite, hfx, hc, hn, hrest, Bind.bind, Except.bind] at h
        · simp [fix_stupid_sqlite, hfx, hrest, Bind.bind, Except.bind] at h
      | CreateTable ct => simp [fix_stupid_sqlite, hrest, Bind.bind, Except.bind] at h
      | DropTable dt => simp [fix_stupid_sqlite, hrest, Bind.bind, Except.bind] at h
      | RenameTable name new_name => simp [fix_stupid_sqlite, hrest, Bind.bind, Except.bind] at h
      | RawSql raw => simp [fix_stupid_sqlite, hrest, Bind.bind, Except.bind] at h
    | ok tail =>
      have htail := ih tail hrest
      cases step with
      | AlterTable alter_table =>
        by_cases hfx : needs_fix alter_table
        · cases hc : cur.table alter_table.table with
          | none => simp [fix_stupid_sqlite, hfx, hc] at h
          | some current_table =>
            cases hn : nxt.table alter_table.table with
            | none => simp [fix_stupid_sqlite, hfx, hc, hn] at h
            | some next_table =>
              simp [fix_stupid_sqlite, hfx, hc, hn, hrest, Bind.bind, Except.bind] at h
              simp [← h, step_group, hfx, hc, hn, htail]
        · simp [fix_stupid_sqlite, hfx, hrest, Bind.bind, Except.bind] at h
          simp [← h, step_group, hfx, htail]
      | CreateTable ct =>
        simp [fix_stupid_sqlite, hrest, Bind.bind, Except.bind] at h
        simp [← h, step_group, htail]
      | DropTable dt =>
        simp [fix_stupid_sqlite, hrest, Bind.bind, Except.bind] at h
        simp [← h, step_group, htail]
      | RenameTable name new_name =>
        simp [fix_stupid_sqlite, hrest, Bind.bind, Except.bind] at h
        simp [← h, step_group, htail]
      | RawSql raw =>
        simp [fix_stupid_sqlite, hrest, Bind.bind, Except.bind] at h
        simp [← h, step_group, htail]

/-- The `id INTEGER` primary-key column of the spec's end-to-end example. -/
def id_column : TableColumn := ⟨"id", ColumnType.Int, true, none, none⟩

/-- The `name TEXT` column of the spec's end-to-end example. -/
def name_column : TableColumn := ⟨"name", ColumnType.String, false, none, none⟩

/-- Current `users` table of the end-to-end example: `users(id INTEGER pk, name TEXT)`. -/
def users_current : Table := ⟨"users", [id_column, name_column], some ⟨["id"]⟩⟩

/-- Expected `users` table of the end-to-end example: `name` dropped, `email` added. -/
def users_next : Table := ⟨"users", [id_column, email_column], some ⟨["id"]⟩⟩

/-- Current schema snapshot of the end-to-end example. -/
def current_schema : DatabaseSchema := ⟨[users_current], []⟩

/-- Expected schema snapshot of the end-to-end example. -/
def next_schema : DatabaseSchema := ⟨[users_next], []⟩

/-- The diff of the end-to-end example: `AlterTable(users, [DropColumn(name),
AddColumn(email)])`. -/
def example_alter : AlterTable :=
  ⟨"users", [TableChange.DropColumn "name", TableChange.AddColumn email_column]⟩

/-- A passthrough `AlterTable` consisting only of an `AddColumn` change. -/
def posts_add_alter : AlterTable := ⟨"posts", [TableChange.AddColumn email_column]⟩

/-- An input step list mixing a needing-correction `AlterTable`, a passthrough
`AlterTable`, and a passthrough `RawSql`. -/
def example_steps : List SqlMigrationStep :=
  [SqlMigrationStep.AlterTable example_alter,
   SqlMigrationStep.AlterTable posts_add_alter,
   SqlMigrationStep.RawSql "SELECT 1"]

/-- The corrected output of `fix_stupid_sqlite` on `example_steps`: the rebuild
of `users` followed by the two passthrough steps. -/
def example_corrected : List SqlMigrationStep :=
  [SqlMigrationStep.RawSql "PRAGMA foreign_keys=OFF;",
   SqlMigrationStep.CreateTable
     { name := "new_users",
       columns :=
         [⟨"id", ColumnType.Int, true, none, none⟩,
          ⟨"email", ColumnType.String, true, none, none⟩],
       primary_columns := ["id"] },
   SqlMigrationStep.RawSql "INSERT INTO new_users (id) SELECT id from users",
   SqlMigrationStep.DropTable ⟨"users"⟩,
   SqlMigrationStep.RenameTable "new_users" "users",
   SqlMigrationStep.RawSql "PRAGMA \"db\".foreign_key_check;",
   SqlMigrationStep.RawSql "PRAGMA foreign_keys=ON;",
   SqlMigrationStep.AlterTable posts_add_alter,
   SqlMigrationStep.RawSql "SELECT 1"]

example : fix_stupid_sqlite "db" current_schema next_schema example_steps =
    Except.ok example_corrected := rfl

/-- If `needs_fix` answers false, every change in the list is an `AddColumn`
(the `find?` over the change list found no `DropColumn`/`AlterColumn`). -/
theorem needs_fix_false_all_add (a : AlterTable) (h : needs_fix a = false) :
    ∀ ch ∈ a.changes, ∃ c, ch = TableChange.AddColumn c := by
  intro ch hch
  simp only [needs_fix] at h
  cases hf : a.changes.find? (fun change =>
    match change with
    | TableChange.AddColumn _ => false
    | TableChange.DropColumn _ => true
    | TableChange.AlterColumn _ _ => true) with
  | some x => rw [hf] at h; simp at h
  | none =>
    have hp := List.find?_eq_none.mp hf ch hch
    cases ch with
    | AddColumn c => exact ⟨c, rfl⟩
    | DropColumn n => simp at hp
    | AlterColumn n c => simp at hp

/-- C2: `needs_fix` answers true iff the `AlterTable`'s change list contains at
least one `DropColumn` or `AlterColumn` change; a change list made only of
`AddColumn` changes never needs correction. -/
theorem needs_fix_iff_drop_or_alter (a : AlterTable) :
    (needs_fix a = true ↔ ∃ ch ∈ a.changes,
      (∃ n, ch = TableChange.DropColumn n) ∨
      ∃ n c, ch = TableChange.AlterColumn n c) ∧
    ((∀ ch ∈ a.changes, ∃ c, ch = TableChange.AddColumn c) → needs_fix a = false) := by
  constructor
  · unfold needs_fix
    rw [List.find?_isSome]
    constructor
    · rintro ⟨ch, hmem, hp⟩
      refine ⟨ch, hmem, ?_⟩
      cases ch with
      | AddColumn c => simp at hp
      | DropColumn n => exact Or.inl ⟨n, rfl⟩
      | AlterColumn n c => exact Or.inr ⟨n, c, rfl⟩
    · rintro ⟨ch, hmem, hp⟩
      refine ⟨ch, hmem, ?_⟩
      rcases hp with ⟨n, rfl⟩ | ⟨n, c, rfl⟩ <;> rfl
  · intro hall
    cases hfx : needs_fix a with
    | false => rfl
    | true =>
      exfalso
      unfold needs_fix at hfx
      rw [List.find?_isSome] at hfx
      obtain ⟨ch, hmem, hp⟩ := hfx
      obtain ⟨c, rfl⟩ := hall ch hmem
      simp at hp

/-- Witness for C2 at the end-to-end example's `AlterTable`. -/
theorem needs_fix_iff_drop_or_alter_witness : needs_fix example_alter = true :=
  (needs_fix_iff_drop_or_alter example_alter).1.mpr
    ⟨TableChange.DropColumn "name", by simp [example_alter],
     Or.inl ⟨"name", rfl⟩⟩

/-- C4: on a successful run, the corrector's output is the concatenation of
per-step groups in input order, and every step that does not need correction
has the singleton group of itself — so passthrough steps appear unchanged and
relative order among passthrough steps and corrected groups follows the input
list. -/
theorem corrector_preserves_passthrough_and_order (schema_name : String)
    (cur nxt : DatabaseSchema) (steps out : List SqlMigrationStep)
    (h : fix_stupid_sqlite schema_name cur nxt steps = Except.ok out) :
    out = (steps.map (step_group schema_name cur nxt)).flatten ∧
    ∀ step, needs_correction step = false →
      step_group schema_name cur nxt step = [step] := by
  refine ⟨fix_stupid_sqlite_ok_eq_flatten schema_name cur nxt steps out h, ?_⟩
  intro step hstep
  cases step with
  | AlterTable alter_table =>
    simp only [needs_correction] at hstep
    simp [step_group, hstep]
  | CreateTable ct => rfl
  | DropTable dt => rfl
  | RenameTable name new_name => rfl
  | RawSql raw => rfl

/-- Witness for C4: the example run is the flattened per-step groups, and the
passthrough `RawSql` step has a singleton group. -/
theorem corrector_preserves_passthrough_and_order_witness :
    example_corrected =
      (example_steps.map (step_group "db" current_schema next_schema)).flatten ∧
    step_group "db" current_schema next_schema (SqlMigrationStep.RawSql "SELECT 1") =
      [SqlMigrationStep.RawSql "SELECT 1"] :=
  ⟨(corrector_preserves_passthrough_and_order "db" current_schema next_schema
      example_steps example_corrected rfl).1,
   (corrector_preserves_passthrough_and_order "db" current_schema next_schema
      example_steps example_corrected rfl).2
      (SqlMigrationStep.RawSql "SELECT 1") rfl⟩

/-- None of the seven rebuild steps produced by `fix` is an `AlterTable`. -/
theorem fix_has_no_alter_table (schema_name : String) (a b : AlterTable)
    (current next : Table) (s : DatabaseSchema) :
    SqlMigrationStep.AlterTable b ∉ fix schema_name a current next s := by
  intro hmem
  simp [fix] at hmem

/-- C10: on a successful run of the corrector, every `AlterTable` step that
remains in the output carries only `AddColumn` changes — no `DropColumn` or
`AlterColumn` survives correction. -/
theorem corrected_output_alters_only_add (schema_name : String)
    (cur nxt : DatabaseSchema) (steps out : List SqlMigrationStep)
    (h : fix_stupid_sqlite schema_name cur nxt steps = Except.ok out) :
    ∀ a, SqlMigrationStep.AlterTable a ∈ out →
      ∀ ch ∈ a.changes, ∃ c, ch = TableChange.AddColumn c := by
  have hout := fix_stupid_sqlite_ok_eq_flatten schema_name cur nxt steps out h
  subst hout
  intro a hmem ch hch
  rw [List.mem_flatten] at hmem
  obtain ⟨group, hg, hx⟩ := hmem
  rw [List.mem_map] at hg
  obtain ⟨step, hstep, rfl⟩ := hg
  cases step with
  | AlterTable b =>
    by_cases hfx : needs_fix b
    · cases hc : cur.table b.table with
      | none => simp [step_group, hfx, hc] at hx
      | some current_table =>
        cases hn : nxt.table b.table with
        | none => simp [step_group, hfx, hc, hn] at hx
        | some next_table =>
          simp only [step_group, hfx, if_true, hc, hn] at hx
          exact absurd hx (fix_has_no_alter_table schema_name b a current_table
            next_table nxt)
    · simp only [step_group, hfx, Bool.false_eq_true, if_false, List.mem_singleton] at hx
      injection hx with hab
      subst hab
      exact needs_fix_false_all_add a (by simpa using hfx) ch hch
  | CreateTable ct => simp [step_group] at hx
  | DropTable dt => simp [step_group] at hx
  | RenameTable name new_name => simp [step_group] at hx
  | RawSql raw => simp [step_group] at hx

/-- Witness for C10: the passthrough `AlterTable` in the example output has
only `AddColumn` changes. -/
theorem corrected_output_alters_only_add_witness :
    ∃ c, TableChange.AddColumn email_column = TableChange.AddColumn c :=
  corrected_output_alters_only_add "db" current_schema next_schema example_steps
    example_corrected rfl posts_add_alter (by simp [example_corrected])
    (TableChange.AddColumn email_column) (by simp [posts_add_alter])

/-- C1: for an `AlterTable` on table T whose current and expected tables are
the ones named T, `fix` replaces it with exactly seven steps in this order:
the foreign-keys-off pragma, a `CreateTable` of the temporary table `new_<T>`
carrying the full column list and primary-key column list of the expected
model of T, the INSERT-SELECT data copy over the intersection columns, a
`DropTable` of the original T, a `RenameTable` from `new_<T>` back to T, the
schema-qualified foreign_key_check pragma, and the foreign-keys-on pragma. -/
theorem fix_emits_seven_step_rebuild (schema_name : String) (a : AlterTable)
    (current next : Table) (s : DatabaseSchema)
    (hcur : current.name = a.table) (hnext : next.name = a.table) :
    fix schema_name a current next s =
      [SqlMigrationStep.RawSql "PRAGMA foreign_keys=OFF;",
       SqlMigrationStep.CreateTable
         { name := "new_" ++ a.table,
           columns := column_descriptions next.columns next s.relations,
           primary_columns :=
             match next.primary_key with
             | none => []
             | some idx => idx.columns },
       SqlMigrationStep.RawSql ("INSERT INTO " ++ ("new_" ++ a.table) ++ " (" ++
         String.intercalate "," (intersection_columns current next) ++
         ") SELECT " ++
         String.intercalate "," (intersection_columns current next) ++
         " from " ++ a.table),
       SqlMigrationStep.DropTable { name := a.table },
       SqlMigrationStep.RenameTable ("new_" ++ a.table) a.table,
       SqlMigrationStep.RawSql ("PRAGMA \"" ++ schema_name ++ "\".foreign_key_check;"),
       SqlMigrationStep.RawSql "PRAGMA foreign_keys=ON;"] := by
  rw [← hnext]
  simp [fix, hcur.trans hnext.symm]

/-- Witness for C1: the end-to-end example's rebuild of `users`. -/
theorem fix_emits_seven_step_rebuild_witness :
    fix "db" example_alter users_current users_next next_schema =
      [SqlMigrationStep.RawSql "PRAGMA foreign_keys=OFF;",
       SqlMigrationStep.CreateTable
         { name := "new_users",
           columns :=
             [⟨"id", ColumnType.Int, true, none, none⟩,
              ⟨"email", ColumnType.String, true, none, none⟩],
           primary_columns := ["id"] },
       SqlMigrationStep.RawSql "INSERT INTO new_users (id) SELECT id from users",
       SqlMigrationStep.DropTable ⟨"users"⟩,
       SqlMigrationStep.RenameTable "new_users" "users",
       SqlMigrationStep.RawSql "PRAGMA \"db\".foreign_key_check;",
       SqlMigrationStep.RawSql "PRAGMA foreign_keys=ON;"] :=
  fix_emits_seven_step_rebuild "db" example_alter users_current users_next
    next_schema rfl rfl

/-- C3: the data-copy step of the rebuild (index 2 of `fix`'s output) uses the
intersection-column list for both the INSERT column list and the SELECT list,
and that list is exactly the names present in both the current and the
expected table, as a sublist of the current table's column order (so dropped
and newly added columns are excluded). -/
theorem copy_step_uses_ordered_intersection (schema_name : String)
    (a : AlterTable) (current next : Table) (s : DatabaseSchema) :
    (fix schema_name a current next s)[2]? =
      some (SqlMigrationStep.RawSql ("INSERT INTO " ++ ("new_" ++ next.name) ++
        " (" ++ String.intercalate "," (intersection_columns current next) ++
        ") SELECT " ++
        String.intercalate "," (intersection_columns current next) ++
        " from " ++ next.name)) ∧
    (∀ x, x ∈ intersection_columns current next ↔
      x ∈ current.columns.map TableColumn.name ∧
      x ∈ next.columns.map TableColumn.name) ∧
    (intersection_columns current next).Sublist
      (current.columns.map TableColumn.name) := by
  refine ⟨rfl, ?_, List.filter_sublist _⟩
  intro x
  simp [intersection_columns]

/-- The empty schema snapshot: no tables, no relations. -/
def empty_schema : DatabaseSchema := ⟨[], []⟩

/-- A step list whose single `AlterTable` references a table that no schema
snapshot of `empty_schema` contains. -/
def failing_steps : List SqlMigrationStep := [SqlMigrationStep.AlterTable example_alter]

/-- C9 counterexample: when the schemas lack the table of a needing-correction
`AlterTable`, the corrector aborts with the generic `Option::unwrap` panic,
whose message does not contain the table name `users` — so the failure is not
surfaced as a typed error value carrying the table name. -/
theorem corrector_failure_lacks_table_name :
    fix_stupid_sqlite "db" empty_schema empty_schema failing_steps =
      Except.error unwrap_panic_message ∧
    ¬ "users".data <:+: unwrap_panic_message.data := by
  refine ⟨rfl, ?_⟩
  decide

/-- C9 (amended): a corrector failure arises only when the current or expected
schema lacks the table referenced by a needing-correction `AlterTable`, and
the failure is the generic `Option::unwrap` panic message, which carries no
table name. -/
theorem corrector_error_only_on_missing_table (schema_name : String)
    (cur nxt : DatabaseSchema) :
    ∀ (steps : List SqlMigrationStep) (e : String),
      fix_stupid_sqlite schema_name cur nxt steps = Except.error e →
      e = unwrap_panic_message ∧
      ∃ a, SqlMigrationStep.AlterTable a ∈ steps ∧ needs_fix a = true ∧
        (cur.table a.table = none ∨ nxt.table a.table = none) := by
  intro steps
  induction steps with
  | nil =>
    intro e h
    simp [fix_stupid_sqlite] at h
  | cons step rest ih =>
    intro e h
    cases step with
    | AlterTable alter_table =>
      cases hfx : needs_fix alter_table with
      | true =>
        cases hc : cur.table alter_table.table with
        | none =>
          simp [fix_stupid_sqlite, hfx, hc] at h
          exact ⟨h.symm, alter_table, List.mem_cons_self _ _, hfx, Or.inl hc⟩
        | some current_table =>
          cases hn : nxt.table alter_table.table with
          | none =>
            simp [fix_stupid_sqlite, hfx, hc, hn] at h
            exact ⟨h.symm, alter_table, List.mem_cons_self _ _, hfx, Or.inr hn⟩
          | some next_table =>
            cases hrest : fix_stupid_sqlite schema_name cur nxt rest with
            | error erest =>
              simp [fix_stupid_sqlite, hfx, hc, hn, hrest, Bind.bind,
                Except.bind] at h
              obtain ⟨hmsg, a, hmem, hfxa, hmiss⟩ := ih erest hrest
              exact ⟨h ▸ hmsg, a, List.mem_cons_of_mem _ hmem, hfxa, hmiss⟩
            | ok tail =>
              simp [fix_stupid_sqlite, hfx, hc, hn, hrest, Bind.bind,
                Except.bind] at h
      | false =>
        cases hrest : fix_stupid_sqlite schema_name cur nxt rest with
        | error erest =>
          simp [fix_stupid_sqlite, hfx, hrest, Bind.bind, Except.bind] at h
          obtain ⟨hmsg, a, hmem, hfxa, hmiss⟩ := ih erest hrest
          exact ⟨h ▸ hmsg, a, List.mem_cons_of_mem _ hmem, hfxa, hmiss⟩
        | ok tail =>
          simp [fix_stupid_sqlite, hfx, hrest, Bind.bind, Except.bind] at h
    | CreateTable ct =>
      cases hrest : fix_stupid_sqlite schema_name cur nxt rest with
      | error erest =>
        simp [fix_stupid_sqlite, hrest, Bind.bind, Except.bind] at h
        obtain ⟨hmsg, a, hmem, hfxa, hmiss⟩ := ih erest hrest
        exact ⟨h ▸ hmsg, a, List.mem_cons_of_mem _ hmem, hfxa, hmiss⟩
      | ok tail =>
        simp [fix_stupid_sqlite, hrest, Bind.bind, Except.bind] at h
    | DropTable dt =>
      cases hrest : fix_stupid_sqlite schema_name cur nxt rest with
      | error erest =>
        simp [fix_stupid_sqlite, hrest, Bind.bind, Except.bind] at h
        obtain ⟨hmsg, a, hmem, hfxa, hmiss⟩ := ih erest hrest
        exact ⟨h ▸ hmsg, a, List.mem_cons_of_mem _ hmem, hfxa, hmiss⟩
      | ok tail =>
        simp [fix_stupid_sqlite, hrest, Bind.bind, Except.bind] at h
    | RenameTable name new_name =>
      cases hrest : fix_stupid_sqlite schema_name cur nxt rest with
      | error erest =>
        simp [fix_stupid_sqlite, hrest, Bind.bind, Except.bind] at h
        obtain ⟨hmsg, a, hmem, hfxa, hmiss⟩ := ih erest hrest
        exact ⟨h ▸ hmsg, a, List.mem_cons_of_mem _ hmem, hfxa, hmiss⟩
      | ok tail =>
        simp [fix_stupid_sqlite, hrest, Bind.bind, Except.bind] at h
    | RawSql raw =>
      cases hrest : fix_stupid_sqlite schema_name cur nxt rest with
      | error erest =>
        simp [fix_stupid_sqlite, hrest, Bind.bind, Except.bind] at h
        obtain ⟨hmsg, a, hmem, hfxa, hmiss⟩ := ih erest hrest
        exact ⟨h ▸ hmsg, a, List.mem_cons_of_mem _ hmem, hfxa, hmiss⟩
      | ok tail =>
        simp [fix_stupid_sqlite, hrest, Bind.bind, Except.bind] at h

/-- Witness for the amended C9 at the concrete failing input. -/
theorem corrector_error_only_on_missing_table_witness :
    unwrap_panic_message = unwrap_panic_message ∧
    ∃ a, SqlMigrationStep.AlterTable a ∈ failing_steps ∧ needs_fix a = true ∧
      (empty_schema.table a.table = none ∨ empty_schema.table a.table = none) :=
  corrector_error_only_on_missing_table "db" empty_schema empty_schema
    failing_steps unwrap_panic_message rfl

/-- A raw column row of SQLite's `Pragma table_info`, as consumed by
`Sqlite::get_columns` (fields `name`, `type`, `notnull`, `dflt_value`, `pk`). -/
structure TableInfoRow where
  name : String
  tpe : String
  notnull : Bool
  dflt_value : Option String
  pk : Nat
deriving DecidableEq, Repr

/-- A raw row of SQLite's `Pragma foreign_key_list` (fields `from`, `table`,
`to`), as consumed by `Sqlite::get_foreign_constraints`. -/
structure ForeignKeyListRow where
  from_column : String
  table : String
  to_column : String
deriving DecidableEq, Repr

/-- The introspection query surface of one SQLite database: the table names
listed by `sqlite_master` and, per table, the rows answered by the
`table_info` and `foreign_key_list` pragmas. -/
structure SqliteDatabase where
  master_table_names : List String
  table_info : String → List TableInfoRow
  foreign_key_list : String → List ForeignKeyListRow

/-- `IntrospectedColumn` of the database inspector: raw column metadata with
the declared type string and the primary-key ordinal `pk`. -/
structure IntrospectedColumn where
  name : String
  table : String
  tpe : String
  is_required : Bool
  default : Option String
  pk : Nat
deriving DecidableEq, Repr

/-- `IntrospectedForeignKey` of the database inspector: source column and
referenced table/column; SQLite exposes no constraint name, so it is empty. -/
structure IntrospectedForeignKey where
  name : String
  table : String
  column : String
  referenced_table : String
  referenced_column : String
deriving DecidableEq, Repr

/-- A converted column of an introspected table (the inspector's `Column`),
with the raw type string resolved to a semantic type. -/
structure Column where
  name : String
  tpe : ColumnType
  is_required : Bool
  default : Option String
  foreign_key : Option ForeignKeyRef
deriving DecidableEq, Repr

/-- A table as produced by `Sqlite::get_table`: converted columns, (empty)
indexes, and the derived primary-key column list. -/
structure InspectedTable where
  name : String
  columns : List Column
  indexes : List IndexInfo
  primary_key_columns : List String
deriving DecidableEq, Repr

/-- The schema snapshot produced by `Sqlite::introspect`. -/
structure InspectedSchema where
  tables : List InspectedTable
deriving DecidableEq, Repr

/-- Rust's `str::starts_with` for string patterns: a character-wise prefix
test. -/
def string_starts_with (s pre : String) : Bool :=
  pre.data.isPrefixOf s.data

/-- `column_type` of the SQLite inspector: the fixed lookup from declared type
strings to semantic types, in source order (`INTEGER`, `REAL`, `BOOLEAN`,
`TEXT`, any `VARCHAR`-prefixed string, `DATE`); any other string panics with a
message naming the raw type string and the column, modelled as an error. -/
def column_type (column : IntrospectedColumn) : Except String ColumnType :=
  if column.tpe = "INTEGER" then Except.ok ColumnType.Int
  else if column.tpe = "REAL" then Except.ok ColumnType.Float
  else if column.tpe = "BOOLEAN" then Except.ok ColumnType.Boolean
  else if column.tpe = "TEXT" then Except.ok ColumnType.String
  else if string_starts_with column.tpe "VARCHAR" then Except.ok ColumnType.String
  else if column.tpe = "DATE" then Except.ok ColumnType.DateTime
  else Except.error ("type " ++ column.tpe ++
    " is not supported here yet. Column was: " ++ column.name)

/-- `Sqlite::get_table_names`: the names answered by `sqlite_master`, with the
engine-internal `sqlite_sequence` bookkeeping table filtered out. -/
def get_table_names (db : SqliteDatabase) (_schema : String) : List String :=
  db.master_table_names.filter (fun n => n ≠ "sqlite_sequence")

/-- `Sqlite::get_columns`: each `table_info` row becomes an
`IntrospectedColumn` of the table. -/
def get_columns (db : SqliteDatabase) (_schema : String) (table : String) :
    List IntrospectedColumn :=
  (db.table_info table).map (fun row =>
    { name := row.name, table := table, tpe := row.tpe,
      is_required := row.notnull, default := row.dflt_value, pk := row.pk })

/-- `Sqlite::get_foreign_constraints`: each `foreign_key_list` row becomes an
`IntrospectedForeignKey` with an empty name. -/
def get_foreign_constraints (db : SqliteDatabase) (_schema : String)
    (table : String) : List IntrospectedForeignKey :=
  (db.foreign_key_list table).map (fun row =>
    { name := "", table := table, column := row.from_column,
      referenced_table := row.table, referenced_column := row.to_column })

/-- The primary-key derivation of `Sqlite::get_table` (lines 54-60): stable
sort the columns by their key ordinal `pk` (Rust's stable `sort_by_key`,
embedded as insertion sort, which is also stable and so produces the same
list), keep only those with ordinal greater than 0, and take their names. -/
def primary_key_columns_of (introspected_columns : List IntrospectedColumn) :
    List String :=
  let columns_copy := introspected_columns.insertionSort (fun a b => a.pk ≤ b.pk)
  (columns_copy.filter (fun c => 0 < c.pk)).map (fun c => c.name)

/-- Modelled from the spec: `convert_introspected_columns` lives in
`database_inspector_impl`, which is not part of this source snapshot; per the
spec, each introspected column is converted by resolving its declared type
string through the supplied lookup (fatal on unrecognized strings) and
attaching the foreign key whose source column matches, if any. -/
def convert_introspected_columns (columns : List IntrospectedColumn)
    (foreign_keys : List IntrospectedForeignKey)
    (tpe_of : IntrospectedColumn → Except String ColumnType) :
    Except String (List Column) :=
  columns.mapM (fun c => do
    let t ← tpe_of c
    Except.ok
      { name := c.name, tpe := t, is_required := c.is_required,
        default := c.default,
        foreign_key := (foreign_keys.find? (fun fk => fk.column = c.name)).map
          (fun fk => ⟨fk.referenced_table, fk.referenced_column⟩) })

/-- `Sqlite::get_table`: columns and foreign keys are fetched, the primary key
is derived from the key ordinals, and the columns are converted. -/
def get_table (db : SqliteDatabase) (schema : String) (table : String) :
    Except String InspectedTable := do
  let introspected_columns := get_columns db schema table
  let introspected_foreign_keys := get_foreign_constraints db schema table
  let pk_columns := primary_key_columns_of introspected_columns
  let columns ← convert_introspected_columns introspected_columns
    introspected_foreign_keys column_type
  Except.ok
    { name := table, columns := columns, indexes := [],
      primary_key_columns := pk_columns }

/-- `Sqlite::introspect`: one table per name answered by `get_table_names`. -/
def introspect (db : SqliteDatabase) (schema : String) :
    Except String InspectedSchema := do
  let tables ← (get_table_names db schema).mapM (fun t => get_table db schema t)
  Except.ok { tables := tables }

/-- C5: the derived primary key consists exactly of the names of the columns
whose key ordinal is greater than zero (ordinal-0 columns excluded), listed in
ascending ordinal order: it is the name image of a list that is a permutation
of the positive-ordinal columns and is sorted by ordinal. -/
theorem primary_key_filters_and_sorts_by_ordinal
    (cols : List IntrospectedColumn) :
    ∃ l : List IntrospectedColumn,
      l.Perm (cols.filter (fun c => 0 < c.pk)) ∧
      l.Pairwise (fun a b => a.pk ≤ b.pk) ∧
      primary_key_columns_of cols = l.map (fun c => c.name) := by
  haveI : IsTotal IntrospectedColumn (fun a b => a.pk ≤ b.pk) :=
    ⟨fun a b => Nat.le_total a.pk b.pk⟩
  haveI : IsTrans IntrospectedColumn (fun a b => a.pk ≤ b.pk) :=
    ⟨fun a b c hab hbc => Nat.le_trans hab hbc⟩
  refine ⟨(cols.insertionSort (fun a b => a.pk ≤ b.pk)).filter
    (fun c => 0 < c.pk), ?_, ?_, ?_⟩
  · exact (List.perm_insertionSort _ _).filter _
  · exact List.Pairwise.sublist (List.filter_sublist _)
      (List.sorted_insertionSort _ _)
  · rfl

example :
    primary_key_columns_of
      [⟨"tenant", "t", "INTEGER", true, none, 2⟩,
       ⟨"name", "t", "TEXT", true, none, 0⟩,
       ⟨"id", "t", "INTEGER", true, none, 1⟩] = ["id", "tenant"] := by decide

/-- C6: the type lookup maps `INTEGER`, `REAL`, `BOOLEAN`, `TEXT`, any
`VARCHAR`-prefixed string, and `DATE` to Int, Float, Boolean, String, String,
and DateTime respectively; every other type string produces an error whose
message contains both the raw type string and the column name — never a
silent default. -/
theorem column_type_mapping (c : IntrospectedColumn) :
    (c.tpe = "INTEGER" → column_type c = Except.ok ColumnType.Int) ∧
    (c.tpe = "REAL" → column_type c = Except.ok ColumnType.Float) ∧
    (c.tpe = "BOOLEAN" → column_type c = Except.ok ColumnType.Boolean) ∧
    (c.tpe = "TEXT" → column_type c = Except.ok ColumnType.String) ∧
    (string_starts_with c.tpe "VARCHAR" = true →
      column_type c = Except.ok ColumnType.String) ∧
    (c.tpe = "DATE" → column_type c = Except.ok ColumnType.DateTime) ∧
    (c.tpe ∉ ["INTEGER", "REAL", "BOOLEAN", "TEXT", "DATE"] →
      string_starts_with c.tpe "VARCHAR" = false →
      ∃ msg, column_type c = Except.error msg ∧
        c.tpe.data <:+: msg.data ∧ c.name.data <:+: msg.data) := by
  refine ⟨?_, ?_, ?_, ?_, ?_, ?_, ?_⟩
  · intro h; simp [column_type, h]
  · intro h; simp [column_type, h]
  · intro h; simp [column_type, h]
  · intro h; simp [column_type, h]
  · intro h
    have h1 : c.tpe ≠ "INTEGER" := by rintro he; rw [he] at h; exact absurd h (by decide)
    have h2 : c.tpe ≠ "REAL" := by rintro he; rw [he] at h; exact absurd h (by decide)
    have h3 : c.tpe ≠ "BOOLEAN" := by rintro he; rw [he] at h; exact absurd h (by decide)
    have h4 : c.tpe ≠ "TEXT" := by rintro he; rw [he] at h; exact absurd h (by decide)
    simp [column_type, h1, h2, h3, h4, h]
  · intro h
    have hv : string_starts_with "DATE" "VARCHAR" = false := by decide
    simp [column_type, h, hv]
  · intro hmem hv
    simp only [List.mem_cons, List.not_mem_nil, or_false, not_or] at hmem
    obtain ⟨h1, h2, h3, h4, h5⟩ := hmem
    refine ⟨"type " ++ c.tpe ++ " is not supported here yet. Column was: " ++
      c.name, ?_, ?_, ?_⟩
    · simp [column_type, h1, h2, h3, h4, h5, hv]
    · exact ⟨"type ".data,
        (" is not supported here yet. Column was: " ++ c.name).data, by
          simp [String.data_append]⟩
    · refine ⟨("type " ++ c.tpe ++ " is not supported here yet. Column was: ").data,
        [], ?_⟩
      simp [String.data_append]

/-- The spec's unrecognized-type example: a `BLOB` column. -/
def blob_column : IntrospectedColumn := ⟨"data", "users", "BLOB", true, none, 0⟩

/-- Witness for C6 at the `BLOB` column: the mapping fails with a message that
contains the raw type string and the column name. -/
theorem column_type_mapping_witness :
    ∃ msg, column_type blob_column = Except.error msg ∧
      blob_column.tpe.data <:+: msg.data ∧
      blob_column.name.data <:+: msg.data :=
  (column_type_mapping blob_column).2.2.2.2.2.2 (by decide) (by decide)

/-- Every element of a successful `mapM` output comes from an element of the
input list on which the function succeeded. -/
theorem mapM_ok_mem {α β : Type} (f : α → Except String β) :
    ∀ (l : List α) (out : List β), l.mapM f = Except.ok out →
      ∀ y ∈ out, ∃ x ∈ l, f x = Except.ok y := by
  intro l
  induction l with
  | nil =>
    intro out h y hy
    rw [List.mapM_nil] at h
    simp [pure, Except.pure] at h
    subst h
    simp at hy
  | cons x xs ih =>
    intro out h y hy
    rw [List.mapM_cons] at h
    cases hfx : f x with
    | error e =>
      rw [hfx] at h
      simp [Bind.bind, Except.bind] at h
    | ok b =>
      rw [hfx] at h
      cases hrest : xs.mapM f with
      | error e =>
        rw [hrest] at h
        simp [Bind.bind, Except.bind] at h
      | ok bs =>
        rw [hrest] at h
        simp [Bind.bind, Except.bind, pure, Except.pure] at h
        subst h
        rcases List.mem_cons.mp hy with hyb | hybs
        · exact ⟨x, List.mem_cons_self _ _, hyb ▸ hfx⟩
        · obtain ⟨x', hx', hfx'⟩ := ih bs hrest y hybs
          exact ⟨x', List.mem_cons_of_mem _ hx', hfx'⟩

/-- A table successfully produced by `get_table` carries the requested name. -/
theorem get_table_ok_name (db : SqliteDatabase) (schema table : String)
    (t : InspectedTable) (h : get_table db schema table = Except.ok t) :
    t.name = table := by
  simp only [get_table] at h
  cases hc : convert_introspected_columns (get_columns db schema table)
      (get_foreign_constraints db schema table) column_type with
  | error e =>
    rw [hc] at h
    simp [Bind.bind, Except.bind] at h
  | ok columns =>
    rw [hc] at h
    simp [Bind.bind, Except.bind] at h
    rw [← h]

/-- C8: a schema produced by the SQLite introspector never contains a table
named `sqlite_sequence` — the engine-internal sequence-tracking table is
filtered out of the table-name listing. -/
theorem introspect_excludes_sqlite_sequence (db : SqliteDatabase)
    (schema : String) (s : InspectedSchema)
    (h : introspect db schema = Except.ok s) :
    ∀ t ∈ s.tables, t.name ≠ "sqlite_sequence" := by
  intro t ht
  simp only [introspect] at h
  cases hm : (get_table_names db schema).mapM (fun n => get_table db schema n) with
  | error e =>
    rw [hm] at h
    simp [Bind.bind, Except.bind] at h
  | ok tables =>
    rw [hm] at h
    simp [Bind.bind, Except.bind] at h
    rw [← h] at ht
    obtain ⟨n, hn, hok⟩ := mapM_ok_mem _ _ _ hm t ht
    have hname := get_table_ok_name db schema n t hok
    rw [hname]
    have := List.mem_filter.mp hn
    simpa using this.2

/-- A one-table SQLite database whose catalog also lists `sqlite_sequence`. -/
def example_db : SqliteDatabase :=
  { master_table_names := ["users", "sqlite_sequence"],
    table_info := fun _ => [⟨"id", "INTEGER", true, none, 1⟩],
    foreign_key_list := fun _ => [] }

/-- The single table the introspector derives from `example_db`. -/
def users_inspected : InspectedTable :=
  { name := "users",
    columns := [⟨"id", ColumnType.Int, true, none, none⟩],
    indexes := [],
    primary_key_columns := ["id"] }

/-- Witness for C8: introspecting `example_db` succeeds, returns only `users`,
and that table is not named `sqlite_sequence`. -/
theorem introspect_excludes_sqlite_sequence_witness :
    users_inspected.name ≠ "sqlite_sequence" :=
  introspect_excludes_sqlite_sequence example_db "db" ⟨[users_inspected]⟩
    rfl users_inspected (by simp)

/-- Lexicographic order on character lists by code point, used to order tables
by name deterministically. -/
def char_list_le : List Char → List Char → Bool
  | [], _ => true
  | _ :: _, [] => false
  | a :: as, b :: bs =>
    if a.toNat < b.toNat then true
    else if b.toNat < a.toNat then false
    else char_list_le as bs

/-- Table order by name (lexicographic by code point). -/
def table_name_le (a b : Table) : Bool :=
  char_list_le a.name.data b.name.data

/-- Deterministic by-name ordering of a class of tables (spec step 4 of the
differ); a stable sort by table name. -/
def sort_by_table_name (ts : List Table) : List Table :=
  ts.insertionSort (fun a b => table_name_le a b = true)

/-- Modelled from the spec: the per-table column diff of
`DatabaseSchemaDiffer` is not part of this source snapshot; per the spec,
columns only in the expected table become `AddColumn`, columns only in the
current table become `DropColumn`, and columns present in both whose type,
nullability, default, or foreign-key attachment differ become `AlterColumn`;
identical columns produce no change. -/
def diff_columns (current expected : Table) : List TableChange :=
  let adds := (expected.columns.filter (fun ec =>
      ¬ current.columns.any (fun cc => cc.name = ec.name))).map TableChange.AddColumn
  let drops := (current.columns.filter (fun cc =>
      ¬ expected.columns.any (fun ec => ec.name = cc.name))).map
      (fun cc => TableChange.DropColumn cc.name)
  let alters := expected.columns.filterMap (fun ec =>
      match current.columns.find? (fun cc => cc.name = ec.name) with
      | none => none
      | some cc =>
        if cc.tpe ≠ ec.tpe ∨ cc.is_required ≠ ec.is_required ∨
            cc.default ≠ ec.default ∨ cc.foreign_key ≠ ec.foreign_key then
          some (TableChange.AlterColumn ec.name ec)
        else none)
  adds ++ drops ++ alters

/-- Modelled from the spec: `DatabaseSchemaDiffer::diff` is not part of this
source snapshot; per the spec, tables only in the expected schema become
`CreateTable` steps carrying the expected table's full column list and primary
key, tables only in the current schema become `DropTable` steps, tables in
both get a column diff collected into a single `AlterTable` step if any change
exists, and the emitted list orders all `CreateTable` steps first, then
`AlterTable`, then `DropTable`, deterministically by table name within each
class. -/
def diff (current expected : DatabaseSchema) (_schema_name : String) :
    List SqlMigrationStep :=
  let current_names := current.tables.map (fun t => t.name)
  let expected_names := expected.tables.map (fun t => t.name)
  let create_tables :=
    (sort_by_table_name (expected.tables.filter
        (fun t => ¬ current_names.contains t.name))).map (fun t =>
      SqlMigrationStep.CreateTable
        { name := t.name
          columns := column_descriptions t.columns t expected.relations
          primary_columns :=
            match t.primary_key with
            | none => []
            | some idx => idx.columns })
  let alter_tables :=
    (sort_by_table_name expected.tables).filterMap (fun et =>
      match current.table et.name with
      | none => none
      | some ct =>
        let changes := diff_columns ct et
        if changes.isEmpty then none
        else some (SqlMigrationStep.AlterTable { table := et.name, changes := changes }))
  let drop_tables :=
    (sort_by_table_name (current.tables.filter
        (fun t => ¬ expected_names.contains t.name))).map (fun t =>
      SqlMigrationStep.DropTable { name := t.name })
  create_tables ++ alter_tables ++ drop_tables

/-- In a list whose images under `key` are distinct, looking any member up by
its key finds that member itself. -/
theorem find?_key_self {α : Type} (key : α → String) :
    ∀ (l : List α), (l.map key).Nodup →
      ∀ x ∈ l, l.find? (fun y => key y = key x) = some x := by
  intro l
  induction l with
  | nil => intro _ x hx; simp at hx
  | cons u us ih =>
    intro hnd x hx
    rw [List.map_cons, List.nodup_cons] at hnd
    by_cases hk : key u = key x
    · have hxu : x = u := by
        rcases List.mem_cons.mp hx with rfl | hxs
        · rfl
        · exfalso
          exact hnd.1 (hk ▸ List.mem_map_of_mem key hxs)
      subst hxu
      simp [List.find?_cons, hk]
    · have hxs : x ∈ us := by
        rcases List.mem_cons.mp hx with rfl | hxs
        · exact absurd rfl hk
        · exact hxs
      rw [List.find?_cons]
      simp only [hk, decide_eq_true_eq, if_neg]
      exact ih hnd.2 x hxs


/-- Diffing a table against itself produces no column change, provided its
column names are distinct. -/
theorem diff_columns_self (t : Table)
    (h : (t.columns.map (fun c => c.name)).Nodup) : diff_columns t t = [] := by
  simp only [diff_columns, List.append_eq_nil]
  refine ⟨⟨?_, ?_⟩, ?_⟩
  · rw [List.map_eq_nil_iff, List.filter_eq_nil_iff]
    intro ec hec
    simp only [Bool.not_eq_true, decide_eq_false_iff_not, not_not,
      List.any_eq_true, decide_eq_true_eq]
    exact ⟨ec, hec, rfl⟩
  · rw [List.map_eq_nil_iff, List.filter_eq_nil_iff]
    intro cc hcc
    simp only [Bool.not_eq_true, decide_eq_false_iff_not, not_not,
      List.any_eq_true, decide_eq_true_eq]
    exact ⟨cc, hcc, rfl⟩
  · rw [List.filterMap_eq_nil_iff]
    intro ec hec
    rw [find?_key_self (fun c => c.name) t.columns h ec hec]
    simp

/-- C7: diffing a schema snapshot against itself yields the empty step list,
under the spec's SchemaModel invariants (table names unique in the schema,
column names unique within each table). -/
theorem diff_self_empty (s : DatabaseSchema) (ns : String)
    (htables : (s.tables.map (fun t => t.name)).Nodup)
    (hcols : ∀ t ∈ s.tables, (t.columns.map (fun c => c.name)).Nodup) :
    diff s s ns = [] := by
  have hfil : s.tables.filter
      (fun t => ¬ (s.tables.map (fun t => t.name)).contains t.name) = [] := by
    rw [List.filter_eq_nil_iff]
    intro t ht
    simp only [Bool.not_eq_true, decide_eq_false_iff_not, not_not]
    simpa using List.mem_map_of_mem (fun t => t.name) ht
  simp only [diff, List.append_eq_nil]
  refine ⟨⟨?_, ?_⟩, ?_⟩
  · rw [List.map_eq_nil_iff, hfil]
    rfl
  · rw [List.filterMap_eq_nil_iff]
    intro et het
    simp only [sort_by_table_name, List.mem_insertionSort] at het
    have hfind := find?_key_self (fun t : Table => t.name) s.tables htables et het
    simp only [DatabaseSchema.table]
    rw [hfind]
    simp [diff_columns_self et (hcols et het)]
  · rw [List.map_eq_nil_iff, hfil]
    rfl

/-- Witness for C7: diffing the example expected schema against itself yields
no steps. -/
theorem diff_self_empty_witness : diff next_schema next_schema "db" = [] :=
  diff_self_empty next_schema "db" (by decide) (by decide)
